import Mathlib

/-!
Shallow embedding of `lib/charms/mlops_libs/v0/k8s_service_info.py`.

The library exchanges a Kubernetes Service descriptor (two string fields,
`svc_name` and `svc_port`) through a relation data bag.  We model:

* a data bag as an association list of string keys and string values in
  insertion order (a Python dict restricted to the operations the library
  uses: emptiness test, key membership, item read, `dict.update`);
* a relation as the pair of application data bags it carries: the bag of
  the provider application (which the requirer reads as the remote bag and
  the provider writes as its own bag) and the bag of the requirer
  application (never touched by this library);
* the registry state visible to either accessor as the list of relations
  currently bound under the relation name;
* `ops.model.Model.get_relation` (the external registry lookup the
  requirer calls) by its documented behaviour: the unique relation when
  exactly one is bound, `None` when none is, and a
  `TooManyRelatedAppsError` when several are.

Fallible Python code becomes `Except RelationError`.
-/

/-- `REQUIRED_ATTRIBUTES` from the library source. -/
def REQUIRED_ATTRIBUTES : List String := ["svc_name", "svc_port"]

/-- `DEFAULT_RELATION_NAME` from the library source. -/
def DEFAULT_RELATION_NAME : String := "k8s-svc-info"

/-- A relation data bag: a string-keyed, string-valued mapping in insertion
order.  Keys of a bag that models a Python dict are pairwise distinct, and
every operation below preserves that. -/
abbrev Bag := List (String × String)

/-- Dict key lookup: the value at the first entry carrying the key. -/
def Bag.lookup : Bag → String → Option String
  | [], _ => none
  | kv :: rest, key => if kv.1 = key then some kv.2 else Bag.lookup rest key

/-- Dict key membership (Python `key in d`). -/
def Bag.hasKey (b : Bag) (key : String) : Bool :=
  b.any (fun kv => kv.1 = key)

/-- Python `d[key] = v`: replace the value at an existing key in place,
otherwise append the new entry at the end. -/
def Bag.setItem : Bag → String → String → Bag
  | [], key, v => [(key, v)]
  | kv :: rest, key, v =>
    if kv.1 = key then (key, v) :: rest else kv :: Bag.setItem rest key v

/-- Python `d.update(other)`: set every entry of `other`, in order. -/
def Bag.update (b : Bag) (kvs : List (String × String)) : Bag :=
  kvs.foldl (fun acc kv => acc.setItem kv.1 kv.2) b

/-- The errors an accessor call can surface, one constructor per Python
exception class reachable from the library:
`KubernetesServiceInfoRelationMissingError`,
`KubernetesServiceInfoRelationDataMissingError` (both carry their message),
`ops.model.TooManyRelatedAppsError` (raised by the external registry and
propagated), plus the interpreter-level errors `KeyError` and
`AttributeError` that the library could only hit on code paths its own
preflight checks make unreachable. -/
inductive RelationError where
  | relationMissingError (message : String)
  | relationDataMissingError (message : String)
  | tooManyRelatedAppsError
  | keyError (key : String)
  | attributeErrorOnNone
  deriving Repr, DecidableEq

/-- A relation: the two application data bags it carries.  `providerBag` is
the bag owned by the provider application; from the requirer side it is
`relation.data[relation.app]` (the remote bag), from the provider side it is
`relation.data[self.provider_charm.app]` (the local bag).  `requirerBag` is
the requirer application bag, which this library never reads or writes. -/
structure Relation where
  providerBag : Bag
  requirerBag : Bag
  deriving Repr, DecidableEq

/-- Python `d[key]` (dict `__getitem__`): the stored value, or a `KeyError`. -/
def Bag.getItem (b : Bag) (key : String) : Except RelationError String :=
  match b.lookup key with
  | some v => .ok v
  | none => .error (.keyError key)

/-- `ops.model.Model.get_relation(relation_name)` with no relation id, by its
documented behaviour on the relations bound under the name: `None` for zero,
the relation for one, `TooManyRelatedAppsError` for more. -/
def Model.get_relation (relations : List Relation) : Except RelationError (Option Relation) :=
  match relations with
  | [] => .ok none
  | [r] => .ok (some r)
  | _ => .error .tooManyRelatedAppsError

/-- Python repr of a list of strings, as the f-string
`f"Missing attributes: \x7bmissing_attributes\x7d"` interpolates it. -/
def pyStrListRepr (xs : List String) : String :=
  "[" ++ String.intercalate (", ") (xs.map (fun s => "\x27" ++ s ++ "\x27")) ++ "]"

/-- `KubernetesServiceInfoRequirer._relation_preflight_checks`. -/
def relation_preflight_checks (relation : Option Relation) : Except RelationError Unit :=
  match relation with
  | none => .error (.relationMissingError ("Missing k8s-svc-info relation."))
  | some r =>
    let relation_data := r.providerBag
    if relation_data.isEmpty then
      .error (.relationDataMissingError ("No data found in relation data bag."))
    else
      let missing_attributes :=
        REQUIRED_ATTRIBUTES.filter (fun attr => !relation_data.hasKey attr)
      if missing_attributes.isEmpty then
        .ok ()
      else
        .error (.relationDataMissingError
          ("Missing attributes: " ++ pyStrListRepr missing_attributes))

/-- `KubernetesServiceInfoRequirer.get_k8s_svc_info`, on the relations bound
under the requirer relation name.  The `none` arm after the preflight checks
is unreachable (the checks raise on a missing relation); Python would fail
there with an `AttributeError` on `None`, which we keep as such. -/
def get_k8s_svc_info (relations : List Relation) : Except RelationError Bag :=
  match Model.get_relation relations with
  | .error e => .error e
  | .ok relation =>
    match relation_preflight_checks relation with
    | .error e => .error e
    | .ok _ =>
      match relation with
      | none => .error .attributeErrorOnNone
      | some r =>
        match r.providerBag.getItem ("svc_name"), r.providerBag.getItem ("svc_port") with
        | .ok svc_name, .ok svc_port =>
          .ok [("svc_name", svc_name), ("svc_port", svc_port)]
        | .error e, _ => .error e
        | _, .error e => .error e

/-- `get_k8s_svc_info` as a transformer of the registry state it runs
against: the method body only performs reads (`Model.get_relation`, the
preflight checks, and data bag item reads), so every arm returns the state
it started from, next to the value or error of the pure reading above. -/
def get_k8s_svc_info_run (relations : List Relation) :
    Except RelationError Bag × List Relation :=
  match Model.get_relation relations with
  | .error e => (.error e, relations)
  | .ok relation =>
    match relation_preflight_checks relation with
    | .error e => (.error e, relations)
    | .ok _ =>
      match relation with
      | none => (.error .attributeErrorOnNone, relations)
      | some r =>
        match r.providerBag.getItem ("svc_name"), r.providerBag.getItem ("svc_port") with
        | .ok svc_name, .ok svc_port =>
          (.ok [("svc_name", svc_name), ("svc_port", svc_port)], relations)
        | .error e, _ => (.error e, relations)
        | _, .error e => (.error e, relations)

/-- `KubernetesServiceInfoProvider.send_k8s_svc_info_relation_data`: update
the provider application bag of every relation bound under the provider
relation name with the two fields, and return the new registry state. -/
def send_k8s_svc_info_relation_data (relations : List Relation)
    (svc_name svc_port : String) : List Relation :=
  relations.map (fun relation =>
    { relation with
      providerBag :=
        relation.providerBag.update [("svc_name", svc_name), ("svc_port", svc_port)] })

/-- Default element for positional access into registry states. -/
def relationDefault : Relation := ⟨[], []⟩

-- Basic bag lemmas shared by the claim proofs.

theorem Bag.lookup_isSome_of_eq {b : Bag} {k : String} {v : String}
    (h : b.lookup k = some v) : b.hasKey k = true := by
  induction b with
  | nil => simp [Bag.lookup] at h
  | cons kv rest ih =>
    by_cases hk : kv.1 = k
    · simp [Bag.hasKey, List.any_cons, hk]
    · simp only [Bag.lookup, hk, if_false] at h
      simp [Bag.hasKey, List.any_cons] at ih ⊢
      exact Or.inr (ih h)

theorem Bag.not_isEmpty_of_lookup {b : Bag} {k : String} {v : String}
    (h : b.lookup k = some v) : b.isEmpty = false := by
  cases b with
  | nil => simp [Bag.lookup] at h
  | cons kv rest => simp [List.isEmpty]

theorem Bag.lookup_setItem (b : Bag) (key v k : String) :
    (b.setItem key v).lookup k = if k = key then some v else b.lookup k := by
  induction b with
  | nil =>
    simp only [Bag.setItem, Bag.lookup]
    by_cases h : k = key
    · simp [h]
    · rw [if_neg (fun hh => h hh.symm), if_neg h]
  | cons kv rest ih =>
    by_cases h1 : kv.1 = key
    · simp only [Bag.setItem, if_pos h1, Bag.lookup]
      by_cases h2 : k = key
      · simp [h2]
      · rw [if_neg (fun hh => h2 hh.symm), if_neg h2, if_neg (h1 ▸ fun hh => h2 hh.symm)]
    · simp only [Bag.setItem, if_neg h1, Bag.lookup]
      by_cases h2 : kv.1 = k
      · have h3 : ¬ k = key := fun hh => h1 (h2.trans hh)
        rw [if_pos h2, if_neg h3, if_pos h2]
      · rw [if_neg h2, if_neg h2, ih]

theorem Bag.lookup_update2 (b : Bag) (n p k : String) :
    (b.update [("svc_name", n), ("svc_port", p)]).lookup k =
      if k = "svc_port" then some p
      else if k = "svc_name" then some n
      else b.lookup k := by
  show ((b.setItem ("svc_name") n).setItem ("svc_port") p).lookup k = _
  rw [Bag.lookup_setItem, Bag.lookup_setItem]

/-- The shared success shape: with one bound relation whose provider bag
stores the two required attributes, the requirer getter returns exactly the
stored values keyed by the required attribute names. -/
theorem get_single_ok (pb rb : Bag) (n p : String)
    (hn : pb.lookup ("svc_name") = some n) (hp : pb.lookup ("svc_port") = some p) :
    get_k8s_svc_info [⟨pb, rb⟩] = .ok [("svc_name", n), ("svc_port", p)] := by
  have hkn := Bag.lookup_isSome_of_eq hn
  have hkp := Bag.lookup_isSome_of_eq hp
  have hne := Bag.not_isEmpty_of_lookup hn
  simp [get_k8s_svc_info, Model.get_relation, relation_preflight_checks,
    REQUIRED_ATTRIBUTES, hne, hkn, hkp, Bag.getItem, hn, hp]

theorem send_getD (relations : List Relation) (n p : String) (i : Nat)
    (h : i < relations.length) :
    (send_k8s_svc_info_relation_data relations n p).getD i relationDefault =
      { relations.getD i relationDefault with
        providerBag :=
          (relations.getD i relationDefault).providerBag.update
            [("svc_name", n), ("svc_port", p)] } := by
  unfold send_k8s_svc_info_relation_data
  rw [List.getD_eq_getElem?_getD, List.getElem?_map, List.getD_eq_getElem?_getD,
    List.getElem?_eq_getElem h]
  rfl

/-- C1: for a relation with exactly one bound remote application whose data
bag stores both required attributes, `get_k8s_svc_info` returns exactly the
two stored string values, unmodified, keyed by the required field names. -/
theorem C1_get_returns_stored_values (pb rb : Bag) (n p : String)
    (hn : pb.lookup ("svc_name") = some n) (hp : pb.lookup ("svc_port") = some p) :
    get_k8s_svc_info [⟨pb, rb⟩] = .ok [("svc_name", n), ("svc_port", p)] :=
  get_single_ok pb rb n p hn hp

theorem C1_get_returns_stored_values_witness :
    Bag.lookup [("svc_name", "metadata-grpc-service"), ("svc_port", "8080")] ("svc_name")
      = some ("metadata-grpc-service")
  ∧ Bag.lookup [("svc_name", "metadata-grpc-service"), ("svc_port", "8080")] ("svc_port")
      = some ("8080")
  ∧ get_k8s_svc_info [⟨[("svc_name", "metadata-grpc-service"), ("svc_port", "8080")], []⟩]
      = .ok [("svc_name", "metadata-grpc-service"), ("svc_port", "8080")] :=
  ⟨by decide, by decide,
    C1_get_returns_stored_values _ [] _ _ (by decide) (by decide)⟩

/-- C2: with one bound application whose non-empty bag lacks `svc_port`, the
code raises the data-missing error with message
`Missing attributes: [\x27svc_port\x27]` - the missing keys only, in required
attribute (sorted) order, but with no `in relation <name>` suffix and a
capitalised first word, diverging from the message the claim (and the
repository test suite) states. -/
theorem C2_missing_attr_message_lacks_relation_name :
    get_k8s_svc_info [⟨[("svc_name", "some-service")], []⟩]
      = .error (.relationDataMissingError ("Missing attributes: [\x27svc_port\x27]"))
  ∧ ("Missing attributes: [\x27svc_port\x27]" : String)
      ≠ "missing attributes: [\x27svc_port\x27] in relation k8s-svc-info" := by
  refine ⟨rfl, by decide⟩

/-- C3: with one bound application and an empty data bag, the code raises the
data-missing error with the fixed message `No data found in relation data
bag.` - no relation name is interpolated, diverging from the message the
claim (and the repository test suite) states. -/
theorem C3_empty_bag_message_lacks_relation_name :
    get_k8s_svc_info [⟨[], []⟩]
      = .error (.relationDataMissingError ("No data found in relation data bag."))
  ∧ ("No data found in relation data bag." : String)
      ≠ "no data found in relation k8s-svc-info data bag." := by
  refine ⟨rfl, by decide⟩

/-- C4: publishing `(name, port)` into a single bound relation and then
reading it back returns exactly the supplied values, for arbitrary non-empty
strings (the restriction in the claim; the proof never needs it). -/
theorem C4_publish_then_get_roundtrip (pb rb : Bag) (n p : String)
    (hn : n ≠ "") (hp : p ≠ "") :
    get_k8s_svc_info (send_k8s_svc_info_relation_data [⟨pb, rb⟩] n p)
      = .ok [("svc_name", n), ("svc_port", p)] := by
  have hsend : send_k8s_svc_info_relation_data [⟨pb, rb⟩] n p
      = [⟨pb.update [("svc_name", n), ("svc_port", p)], rb⟩] := rfl
  rw [hsend]
  apply get_single_ok
  · rw [Bag.lookup_update2, if_neg (by decide), if_pos rfl]
  · rw [Bag.lookup_update2, if_pos rfl]

theorem C4_publish_then_get_roundtrip_witness :
    ("metadata-grpc-service.v1" : String) ≠ ""
  ∧ ("8080" : String) ≠ ""
  ∧ get_k8s_svc_info
      (send_k8s_svc_info_relation_data [⟨[("stale", "old")], []⟩]
        ("metadata-grpc-service.v1") ("8080"))
      = .ok [("svc_name", "metadata-grpc-service.v1"), ("svc_port", "8080")] :=
  ⟨by decide, by decide,
    C4_publish_then_get_roundtrip [("stale", "old")] [] _ _ (by decide) (by decide)⟩

/-- C5: publishing has overwrite semantics on each bound relation's own
(provider) data bag: the two written keys now map to the written values,
every other key keeps its previous value, the requirer bag is untouched,
and a second publish overwrites the first instead of accumulating. -/
theorem C5_publish_overwrite_semantics (relations : List Relation)
    (n1 p1 n2 p2 k : String) (i : Nat) (h : i < relations.length) :
    ((send_k8s_svc_info_relation_data relations n1 p1).getD i relationDefault).providerBag.lookup ("svc_name") = some n1
  ∧ ((send_k8s_svc_info_relation_data relations n1 p1).getD i relationDefault).providerBag.lookup ("svc_port") = some p1
  ∧ (k ≠ "svc_name" → k ≠ "svc_port" →
      ((send_k8s_svc_info_relation_data relations n1 p1).getD i relationDefault).providerBag.lookup k
        = (relations.getD i relationDefault).providerBag.lookup k)
  ∧ ((send_k8s_svc_info_relation_data relations n1 p1).getD i relationDefault).requirerBag
      = (relations.getD i relationDefault).requirerBag
  ∧ ((send_k8s_svc_info_relation_data (send_k8s_svc_info_relation_data relations n1 p1) n2 p2).getD i
        relationDefault).providerBag.lookup ("svc_name") = some n2
  ∧ ((send_k8s_svc_info_relation_data (send_k8s_svc_info_relation_data relations n1 p1) n2 p2).getD i
        relationDefault).providerBag.lookup ("svc_port") = some p2 := by
  have h1 : i < (send_k8s_svc_info_relation_data relations n1 p1).length := by
    simpa [send_k8s_svc_info_relation_data] using h
  have e1 := send_getD relations n1 p1 i h
  have e2 := send_getD (send_k8s_svc_info_relation_data relations n1 p1) n2 p2 i h1
  refine ⟨?_, ?_, ?_, ?_, ?_, ?_⟩
  · rw [e1]; exact (Bag.lookup_update2 _ _ _ _).trans (by rw [if_neg (by decide), if_pos rfl])
  · rw [e1]; exact (Bag.lookup_update2 _ _ _ _).trans (by rw [if_pos rfl])
  · intro hk1 hk2
    rw [e1]; exact (Bag.lookup_update2 _ _ _ _).trans (by rw [if_neg hk2, if_neg hk1])
  · rw [e1]
  · rw [e2]; exact (Bag.lookup_update2 _ _ _ _).trans (by rw [if_neg (by decide), if_pos rfl])
  · rw [e2]; exact (Bag.lookup_update2 _ _ _ _).trans (by rw [if_pos rfl])

theorem C5_publish_overwrite_semantics_witness :
    (0 : Nat) < ([⟨[("svc_name", "a"), ("other", "z")], [("u", "1")]⟩] : List Relation).length
  ∧ (((send_k8s_svc_info_relation_data [⟨[("svc_name", "a"), ("other", "z")], [("u", "1")]⟩]
        ("first-name") ("1111")).getD 0 relationDefault).providerBag.lookup ("svc_name") = some ("first-name")
  ∧ ((send_k8s_svc_info_relation_data [⟨[("svc_name", "a"), ("other", "z")], [("u", "1")]⟩]
        ("first-name") ("1111")).getD 0 relationDefault).providerBag.lookup ("svc_port") = some ("1111")
  ∧ (("other" : String) ≠ "svc_name" → ("other" : String) ≠ "svc_port" →
      ((send_k8s_svc_info_relation_data [⟨[("svc_name", "a"), ("other", "z")], [("u", "1")]⟩]
          ("first-name") ("1111")).getD 0 relationDefault).providerBag.lookup ("other")
        = (([⟨[("svc_name", "a"), ("other", "z")], [("u", "1")]⟩] : List Relation).getD 0
            relationDefault).providerBag.lookup ("other"))
  ∧ ((send_k8s_svc_info_relation_data [⟨[("svc_name", "a"), ("other", "z")], [("u", "1")]⟩]
        ("first-name") ("1111")).getD 0 relationDefault).requirerBag
      = (([⟨[("svc_name", "a"), ("other", "z")], [("u", "1")]⟩] : List Relation).getD 0
          relationDefault).requirerBag
  ∧ ((send_k8s_svc_info_relation_data
        (send_k8s_svc_info_relation_data [⟨[("svc_name", "a"), ("other", "z")], [("u", "1")]⟩]
          ("first-name") ("1111")) ("second.name") ("2222")).getD 0
        relationDefault).providerBag.lookup ("svc_name") = some ("second.name")
  ∧ ((send_k8s_svc_info_relation_data
        (send_k8s_svc_info_relation_data [⟨[("svc_name", "a"), ("other", "z")], [("u", "1")]⟩]
          ("first-name") ("1111")) ("second.name") ("2222")).getD 0
        relationDefault).providerBag.lookup ("svc_port") = some ("2222")) :=
  ⟨by decide,
    C5_publish_overwrite_semantics [⟨[("svc_name", "a"), ("other", "z")], [("u", "1")]⟩]
      ("first-name") ("1111") ("second.name") ("2222") ("other") 0 (by decide)⟩

/-- C6: with zero remote applications bound under the relation name, the
getter raises exactly the relation-missing error. -/
theorem C6_zero_relations_raises_relation_missing :
    get_k8s_svc_info [] = .error (.relationMissingError ("Missing k8s-svc-info relation.")) := rfl

/-- C7: with two or more remote applications bound under the relation name,
the getter surfaces the registry error `TooManyRelatedAppsError` unmodified
- no branch of the library catches or rewraps it. -/
theorem C7_too_many_related_apps_propagated (relations : List Relation)
    (h : 2 ≤ relations.length) :
    get_k8s_svc_info relations = .error .tooManyRelatedAppsError := by
  cases relations with
  | nil => simp at h
  | cons a t =>
    cases t with
    | nil => simp at h
    | cons b t2 => rfl

theorem C7_too_many_related_apps_propagated_witness :
    2 ≤ ([relationDefault, relationDefault] : List Relation).length
  ∧ get_k8s_svc_info [relationDefault, relationDefault]
      = .error .tooManyRelatedAppsError :=
  ⟨by decide, C7_too_many_related_apps_propagated [relationDefault, relationDefault] (by decide)⟩

/-- C8: with zero relations bound, the provider publish completes normally
and leaves the registry state unchanged. -/
theorem C8_publish_zero_relations_noop (n p : String) :
    send_k8s_svc_info_relation_data [] n p = [] := rfl

/-- C9: the getter never mutates library-visible state: its state
transformer returns the starting registry state next to the pure reading
result, whether that is a value or an error, so a repeated call observes
the same state and yields the same outcome. -/
theorem C9_get_is_pure_and_idempotent (relations : List Relation) :
    (get_k8s_svc_info_run relations).2 = relations
  ∧ (get_k8s_svc_info_run relations).1 = get_k8s_svc_info relations
  ∧ get_k8s_svc_info_run ((get_k8s_svc_info_run relations).2)
      = get_k8s_svc_info_run relations := by
  have hrun : get_k8s_svc_info_run relations = (get_k8s_svc_info relations, relations) := by
    unfold get_k8s_svc_info_run get_k8s_svc_info
    repeat' split
    all_goals rfl
  exact ⟨by rw [hrun], by rw [hrun], by rw [hrun]; exact hrun⟩

/-- C10: completeness validation only requires the required attributes to be
a subset of the bag keys: a bag holding both required attributes plus an
extra, non-required key still succeeds, and the returned mapping carries the
two required fields only - the extra key is silently ignored. -/
theorem C10_extra_keys_ignored (pb rb : Bag) (n p k : String)
    (hn : pb.lookup ("svc_name") = some n) (hp : pb.lookup ("svc_port") = some p)
    (hk : pb.hasKey k = true) (hkx : k ∉ REQUIRED_ATTRIBUTES) :
    get_k8s_svc_info [⟨pb, rb⟩] = .ok [("svc_name", n), ("svc_port", p)]
  ∧ Bag.hasKey [("svc_name", n), ("svc_port", p)] k = false := by
  refine ⟨get_single_ok pb rb n p hn hp, ?_⟩
  have h1 : ¬ k = "svc_name" ∧ ¬ k = "svc_port" := by
    simpa [REQUIRED_ATTRIBUTES] using hkx
  simp [Bag.hasKey, Ne.symm h1.1, Ne.symm h1.2]

theorem C10_extra_keys_ignored_witness :
    Bag.lookup [("svc_name", "a"), ("svc_port", "b"), ("extra", "c")] ("svc_name") = some ("a")
  ∧ Bag.lookup [("svc_name", "a"), ("svc_port", "b"), ("extra", "c")] ("svc_port") = some ("b")
  ∧ Bag.hasKey [("svc_name", "a"), ("svc_port", "b"), ("extra", "c")] ("extra") = true
  ∧ ("extra" : String) ∉ REQUIRED_ATTRIBUTES
  ∧ (get_k8s_svc_info [⟨[("svc_name", "a"), ("svc_port", "b"), ("extra", "c")], []⟩]
      = .ok [("svc_name", "a"), ("svc_port", "b")]
    ∧ Bag.hasKey [("svc_name", "a"), ("svc_port", "b")] ("extra") = false) :=
  ⟨by decide, by decide, by decide, by decide,
    C10_extra_keys_ignored _ [] _ _ _ (by decide) (by decide) (by decide) (by decide)⟩
